import Mathlib

/-!
# PNG codec extension (mod-png.c): integration layer between the host API and LodePNG

The development embeds the two zlib hooks and the three natives of `mod-png.c`.
The PNG engine (LodePNG) and the host API (`reb...` functions) are external to the file;
they appear as parameters (`Engine`, `Host`) and as the calls recorded in the traces.
-/

namespace ModPng

/-! ## Data model -/

/-- A C pointer to a byte buffer: the address held and the bytes stored from that address on.
The null pointer has address 0. -/
structure Pointer where
  addr : Nat
  bytes : List Nat
deriving DecidableEq, Repr

/-- The functions of this file whose address is stored in a `custom_zlib` field. -/
inductive CustomZlib where
  | rebol_zlib_decompress
  | rebol_zlib_compress
deriving DecidableEq, Repr

/-- The fields of `LodePNGDecompressSettings` that the file touches.  `custom_context` is a
`void*`: `none` is NULL, `some v` points to an `int` holding `v`. -/
structure LodePNGDecompressSettings where
  custom_zlib : Option CustomZlib
  custom_context : Option Int
deriving DecidableEq, Repr

/-- The fields of `LodePNGCompressSettings` that the file touches (same convention). -/
structure LodePNGCompressSettings where
  custom_zlib : Option CustomZlib
  custom_context : Option Int
deriving DecidableEq, Repr

/-- The colour types of `lodepng.h`. -/
inductive LodePNGColorType where
  | LCT_GREY
  | LCT_RGB
  | LCT_PALETTE
  | LCT_GREY_ALPHA
  | LCT_RGBA
deriving DecidableEq, Repr

/-- The fields of `LodePNGColorMode` that the file touches. -/
structure LodePNGColorMode where
  colortype : LodePNGColorType
  bitdepth : Nat
deriving DecidableEq, Repr

/-- The fields of `LodePNGDecoderSettings` that the file touches. -/
structure LodePNGDecoderSettings where
  zlibsettings : LodePNGDecompressSettings
  color_convert : Nat
deriving DecidableEq, Repr

/-- The fields of `LodePNGEncoderSettings` that the file touches. -/
structure LodePNGEncoderSettings where
  zlibsettings : LodePNGCompressSettings
  auto_convert : Nat
deriving DecidableEq, Repr

/-- The field of `LodePNGInfo` that the file touches. -/
structure LodePNGInfo where
  color : LodePNGColorMode
deriving DecidableEq, Repr

/-- The fields of `LodePNGState` that the file touches. -/
structure LodePNGState where
  decoder : LodePNGDecoderSettings
  encoder : LodePNGEncoderSettings
  info_raw : LodePNGColorMode
  info_png : LodePNGInfo
deriving DecidableEq, Repr

/-! ## Machine integers -/

/-- Reduction to the range of C `unsigned` (32 bits). -/
def u32 (n : Nat) : Nat := n % 4294967296

/-- Conversion of a signed `intptr_t` argument to an `unsigned` parameter. -/
def int_to_unsigned (i : Int) : Nat := (i % 4294967296).toNat

/-! ## The zlib hooks -/

/-- Host API calls made by the hooks, in program order. -/
inductive HostCall where
  | rebFree (p : Pointer)
  | rebZinflateAlloc (inp : Pointer) (insize : Nat) (max : Int)
  | rebZdeflateAlloc (inp : Pointer) (insize : Nat)
deriving DecidableEq, Repr

/-- The host compression routines used by the hooks.  Each returns the allocated buffer and
its length, or `none` when the routine raises instead of returning. -/
structure Host where
  rebZinflateAlloc : Pointer → Nat → Int → Option (Pointer × Nat)
  rebZdeflateAlloc : Pointer → Nat → Option (Pointer × Nat)

/-- How a hook invocation ends: it returns a result code to the engine, the `assert` aborts
the process, or the host routine raises and control never comes back to the hook. -/
inductive HookExit where
  | returned (code : Nat)
  | aborted
  | raised
deriving DecidableEq, Repr

/-- Outcome of one hook invocation: the host calls made, the final contents of `*out` and
`*outsize`, and the way the invocation ended. -/
structure HookRun where
  calls : List HostCall
  out : Pointer
  outsize : Nat
  exit : HookExit
deriving DecidableEq, Repr

/-- The `assert` of `assert.h`: compiled out when `NDEBUG` is defined, otherwise execution
continues only if the condition holds. -/
def assert_passes (ndebug : Bool) (cond : Bool) : Bool := ndebug || cond

/-- The allocator bridge `lodepng_free`, which forwards to `rebFree`. -/
def lodepng_free (ptr : Pointer) : List HostCall := [HostCall.rebFree ptr]

/-- Embedding of `rebol_zlib_decompress` (lines 77-107).  `out` and `outsize` are the values of
`*out` and `*outsize` on entry.  The asserted condition reads the `int` behind
`custom_context`; a null context cannot yield 5 and counts as a failed check. -/
def rebol_zlib_decompress (ndebug : Bool) (host : Host) (out : Pointer) (outsize : Nat)
    (inp : Pointer) (insize : Nat) (settings : LodePNGDecompressSettings) : HookRun :=
  let freed := [HostCall.rebFree out]
  if assert_passes ndebug (settings.custom_context == some 5) then
    let max : Int := -1
    let calls := freed ++ [HostCall.rebZinflateAlloc inp insize max]
    match host.rebZinflateAlloc inp insize max with
    | some (p, out_len) => { calls := calls, out := p, outsize := out_len, exit := HookExit.returned 0 }
    | none => { calls := calls, out := out, outsize := outsize, exit := HookExit.raised }
  else
    { calls := freed, out := out, outsize := outsize, exit := HookExit.aborted }

/-- Embedding of `rebol_zlib_compress` (lines 109-126). -/
def rebol_zlib_compress (ndebug : Bool) (host : Host) (out : Pointer) (outsize : Nat)
    (inp : Pointer) (insize : Nat) (settings : LodePNGCompressSettings) : HookRun :=
  let freed := lodepng_free out
  if assert_passes ndebug (settings.custom_context == some 5) then
    let calls := freed ++ [HostCall.rebZdeflateAlloc inp insize]
    match host.rebZdeflateAlloc inp insize with
    | some (p, n) => { calls := calls, out := p, outsize := n, exit := HookExit.returned 0 }
    | none => { calls := calls, out := out, outsize := outsize, exit := HookExit.raised }
  else
    { calls := freed, out := out, outsize := outsize, exit := HookExit.aborted }

/-! ## The engine and the natives -/

/-- Outcome of a call into the engine: it returns a result code together with its output
parameters, or it raises (the engine or a hook it calls leaves by a non-local exit) and
control never comes back to the caller. -/
inductive Outcome (α : Type) where
  | returned (error : Nat) (outs : α)
  | raised
deriving DecidableEq, Repr

/-- The LodePNG entry points used by the natives.  `lodepng_state_init` is the state that
initialisation produces; the output parameters are `(w, h)` for inspect, `(image, w, h)` for
decode and `(encoded, encoded_size)` for encode. -/
structure Engine where
  lodepng_state_init : LodePNGState
  lodepng_inspect : LodePNGState → Pointer → Nat → Outcome (Nat × Nat)
  lodepng_decode : LodePNGState → Pointer → Nat → Outcome (Pointer × Nat × Nat)
  lodepng_encode : LodePNGState → Pointer → Nat → Nat → Outcome (Pointer × Nat)
  lodepng_error_text : Nat → String

/-- Calls made by a native, in program order. -/
inductive Act where
  | rebValue_head_image
  | lodepng_state_init
  | rebValue_pick_size
  | rebUnboxInteger_pick_x
  | rebUnboxInteger_pick_y
  | rebRelease_size
  | rebLockBytes (p : Pointer) (size : Nat)
  | lodepng_inspect (state : LodePNGState) (data : Pointer) (size : Nat)
  | lodepng_decode (state : LodePNGState) (data : Pointer) (size : Nat)
  | lodepng_encode (state : LodePNGState) (image : Pointer) (w h : Nat)
  | lodepng_state_cleanup
  | rebUnlockBytes (p : Pointer)
  | lodepng_error_text (error : Nat)
  | rebDelegate (word : String) (text : String)
  | rebRepossess (p : Pointer) (size : Nat)
  | rebValue_make_image (w h : Nat)
  | rebLogic (b : Bool)
deriving DecidableEq, Repr

/-- Host values built by the natives. -/
inductive Value where
  | logic (b : Bool)
  | blob (p : Pointer) (size : Nat)
  | image (w h : Nat) (pixels : Value)
deriving DecidableEq, Repr

/-- What a native hands back to the evaluator: a value, or a delegation to `raise` / `fail`
with a text. -/
inductive Bounce where
  | value (v : Value)
  | delegate (word : String) (text : String)
deriving DecidableEq, Repr

/-- How a native ends: it returns, or the engine call raised and the native was unwound. -/
inductive Exit where
  | returned (b : Bounce)
  | unwound
deriving DecidableEq, Repr

/-- One execution of a native. -/
structure Run where
  trace : List Act
  exit : Exit
deriving DecidableEq, Repr

/-- Session configuration of `IDENTIFY_PNG_Q` (lines 142-153). -/
def identify_state (init : LodePNGState) : LodePNGState :=
  { init with
    decoder := { init.decoder with
      zlibsettings :=
        { custom_zlib := some CustomZlib.rebol_zlib_decompress, custom_context := some 5 } } }

/-- Session configuration of `DECODE_PNG` (lines 200-218). -/
def decode_state (init : LodePNGState) : LodePNGState :=
  { init with
    decoder :=
      { zlibsettings :=
          { custom_zlib := some CustomZlib.rebol_zlib_decompress, custom_context := some 5 },
        color_convert := 1 },
    info_png := { color := { colortype := LodePNGColorType.LCT_RGBA, bitdepth := 8 } } }

/-- Session configuration of `ENCODE_PNG` (lines 306-333). -/
def encode_state (init : LodePNGState) : LodePNGState :=
  { init with
    encoder :=
      { zlibsettings :=
          { custom_zlib := some CustomZlib.rebol_zlib_compress, custom_context := some 5 },
        auto_convert := 0 },
    info_raw := { colortype := LodePNGColorType.LCT_RGBA, bitdepth := 8 },
    info_png := { color := { colortype := LodePNGColorType.LCT_RGBA, bitdepth := 8 } } }

/-- Embedding of `IDENTIFY_PNG_Q` (lines 138-184).  `data` and `size` are what `rebLockBytes`
yields for the `data` argument. -/
def IDENTIFY_PNG_Q (eng : Engine) (data : Pointer) (size : Nat) : Run :=
  let state := identify_state eng.lodepng_state_init
  let t0 := [Act.lodepng_state_init, Act.rebLockBytes data size,
    Act.lodepng_inspect state data size]
  match eng.lodepng_inspect state data size with
  | Outcome.raised => { trace := t0, exit := Exit.unwound }
  | Outcome.returned error _ =>
    let t1 := t0 ++ [Act.lodepng_state_cleanup, Act.rebUnlockBytes data]
    if error ≠ 0 then
      { trace := t1 ++ [Act.rebLogic false],
        exit := Exit.returned (Bounce.value (Value.logic false)) }
    else
      { trace := t1 ++ [Act.rebLogic true],
        exit := Exit.returned (Bounce.value (Value.logic true)) }

/-- Embedding of `DECODE_PNG` (lines 196-262).  The length handed to `rebRepossess` is
`(w * h) * 4` computed in `unsigned`. -/
def DECODE_PNG (eng : Engine) (data : Pointer) (size : Nat) : Run :=
  let state := decode_state eng.lodepng_state_init
  let t0 := [Act.lodepng_state_init, Act.rebLockBytes data size,
    Act.lodepng_decode state data size]
  match eng.lodepng_decode state data size with
  | Outcome.raised => { trace := t0, exit := Exit.unwound }
  | Outcome.returned error (image_bytes, w, h) =>
    let t1 := t0 ++ [Act.lodepng_state_cleanup, Act.rebUnlockBytes data]
    if error ≠ 0 then
      let text := eng.lodepng_error_text error
      { trace := t1 ++ [Act.lodepng_error_text error, Act.rebDelegate "raise" text],
        exit := Exit.returned (Bounce.delegate "raise" text) }
    else
      let len := u32 (u32 (w * h) * 4)
      { trace := t1 ++ [Act.rebRepossess image_bytes len, Act.rebValue_make_image w h],
        exit := Exit.returned (Bounce.value (Value.image w h (Value.blob image_bytes len))) }

/-- The image argument of `ENCODE_PNG` as the host reports it at its head position:
the x and y of its size, and the pointer and length from `rebLockBytes` on
`bytes of image`. -/
structure HostImage where
  x : Int
  y : Int
  bytes : Pointer
  binsize : Nat
deriving DecidableEq, Repr

/-- Embedding of `ENCODE_PNG` (lines 274-366).  `width` and `height` are `intptr_t` values
converted to the `unsigned` parameters of `lodepng_encode`. -/
def ENCODE_PNG (eng : Engine) (image : HostImage) : Run :=
  let state := encode_state eng.lodepng_state_init
  let width : Int := image.x
  let height : Int := image.y
  let image_bytes := image.bytes
  let w := int_to_unsigned width
  let h := int_to_unsigned height
  let t0 := [Act.rebValue_head_image, Act.lodepng_state_init, Act.rebValue_pick_size,
    Act.rebUnboxInteger_pick_x, Act.rebUnboxInteger_pick_y, Act.rebRelease_size,
    Act.rebLockBytes image_bytes image.binsize, Act.lodepng_encode state image_bytes w h]
  match eng.lodepng_encode state image_bytes w h with
  | Outcome.raised => { trace := t0, exit := Exit.unwound }
  | Outcome.returned error (encoded_bytes, encoded_size) =>
    let t1 := t0 ++ [Act.lodepng_state_cleanup, Act.rebUnlockBytes image_bytes]
    if error ≠ 0 then
      let text := eng.lodepng_error_text error
      { trace := t1 ++ [Act.lodepng_error_text error, Act.rebDelegate "fail" text],
        exit := Exit.returned (Bounce.delegate "fail" text) }
    else
      { trace := t1 ++ [Act.rebRepossess encoded_bytes encoded_size],
        exit := Exit.returned (Bounce.value (Value.blob encoded_bytes encoded_size)) }

/-! ## Classification of calls -/

/-- The call is one of the three engine entry points. -/
def Act.isEngineCall : Act → Bool
  | Act.lodepng_inspect _ _ _ => true
  | Act.lodepng_decode _ _ _ => true
  | Act.lodepng_encode _ _ _ _ => true
  | _ => false

/-- The call is `rebLockBytes`. -/
def Act.isLock : Act → Bool
  | Act.rebLockBytes _ _ => true
  | _ => false

/-- The call is `rebUnlockBytes`. -/
def Act.isUnlock : Act → Bool
  | Act.rebUnlockBytes _ => true
  | _ => false

/-- The call is `lodepng_state_cleanup`. -/
def Act.isCleanup : Act → Bool
  | Act.lodepng_state_cleanup => true
  | _ => false

/-- The call is `rebRepossess`. -/
def Act.isRepossess : Act → Bool
  | Act.rebRepossess _ _ => true
  | _ => false

/-- The call builds the image value. -/
def Act.isMakeImage : Act → Bool
  | Act.rebValue_make_image _ _ => true
  | _ => false

/-- The call takes part in producing the value or error that the native returns. -/
def Act.producesResult : Act → Bool
  | Act.lodepng_error_text _ => true
  | Act.rebDelegate _ _ => true
  | Act.rebRepossess _ _ => true
  | Act.rebValue_make_image _ _ => true
  | Act.rebLogic _ => true
  | _ => false

/-! ## Concrete engines used to evaluate the natives -/

/-- A state with every field cleared, standing for a freshly initialised `LodePNGState`. -/
def blankState : LodePNGState :=
  { decoder := { zlibsettings := { custom_zlib := none, custom_context := none },
                 color_convert := 1 },
    encoder := { zlibsettings := { custom_zlib := none, custom_context := none },
                 auto_convert := 1 },
    info_raw := { colortype := LodePNGColorType.LCT_RGBA, bitdepth := 8 },
    info_png := { color := { colortype := LodePNGColorType.LCT_RGBA, bitdepth := 8 } } }

/-- An engine that decodes every input successfully to a 32768 x 32768 image (a buffer of
2^32 bytes, whose contents are left out), as LodePNG can on a 64-bit host. -/
def wideEngine : Engine :=
  { lodepng_state_init := blankState,
    lodepng_inspect := fun _ _ _ => Outcome.returned 0 (32768, 32768),
    lodepng_decode := fun _ _ _ => Outcome.returned 0 ({ addr := 4096, bytes := [] }, 32768, 32768),
    lodepng_encode := fun _ _ _ _ => Outcome.returned 0 ({ addr := 8192, bytes := [] }, 0),
    lodepng_error_text := fun _ => "" }

/-- An engine that rejects every input with result code 27 and its text. -/
def rejectingEngine : Engine :=
  { lodepng_state_init := blankState,
    lodepng_inspect := fun _ _ _ => Outcome.returned 27 (0, 0),
    lodepng_decode := fun _ _ _ => Outcome.returned 27 ({ addr := 0, bytes := [] }, 0, 0),
    lodepng_encode := fun _ _ _ _ => Outcome.returned 27 ({ addr := 0, bytes := [] }, 0),
    lodepng_error_text := fun e => if e = 27 then "PNG file is smaller than a PNG header" else "unknown error code" }

/-- An engine whose calls never return: a hook it calls raises out of the host compressor. -/
def raisingEngine : Engine :=
  { lodepng_state_init := blankState,
    lodepng_inspect := fun _ _ _ => Outcome.raised,
    lodepng_decode := fun _ _ _ => Outcome.raised,
    lodepng_encode := fun _ _ _ _ => Outcome.raised,
    lodepng_error_text := fun _ => "" }

/-- A 1 x 1 image holding one RGBA pixel. -/
def onePixelImage : HostImage :=
  { x := 1, y := 1, bytes := { addr := 1, bytes := [1, 2, 3, 4] }, binsize := 4 }

/-- The calls that matter for the release discipline: lock, engine call, cleanup, unlock and
every call that takes part in producing the result. -/
def Act.marks (a : Act) : Bool :=
  a.isLock || a.isEngineCall || a.isCleanup || a.isUnlock || a.producesResult

/-- Checks a list of marked calls: it is one lock of `p`, then one engine call, then one
session cleanup, then one unlock of `p`, followed only by result-producing calls (at least
one). -/
def releaseOrder (p : Pointer) : List Act → Bool
  | Act.rebLockBytes q _ :: call :: Act.lodepng_state_cleanup :: Act.rebUnlockBytes q2 :: post =>
    decide (q = p) && decide (q2 = p) && call.isEngineCall && !post.isEmpty
      && post.all Act.producesResult
  | _ => false

/-- The calls that matter for the cleanup order: engine call, cleanup and result production. -/
def Act.cleanupMarks (a : Act) : Bool :=
  a.isEngineCall || a.isCleanup || a.producesResult

/-- Checks a list of cleanup-marked calls: one engine call, then one session cleanup, followed
only by result-producing calls (at least one). -/
def cleanupOrder : List Act → Bool
  | call :: Act.lodepng_state_cleanup :: post =>
    call.isEngineCall && !post.isEmpty && post.all Act.producesResult
  | _ => false

/-- A host whose routines hand back a fresh buffer holding the input bytes unchanged. -/
def echoHost : Host :=
  { rebZinflateAlloc := fun inp insize _ => some ({ addr := 100, bytes := inp.bytes }, insize),
    rebZdeflateAlloc := fun inp insize => some ({ addr := 200, bytes := inp.bytes }, insize) }

/-- A host whose deflater hands back a fresh buffer holding the input bytes and whose inflater
raises on every input, as an inflater does on bytes that are not a zlib stream. -/
def deflateOnlyHost : Host :=
  { rebZinflateAlloc := fun _ _ _ => none,
    rebZdeflateAlloc := fun inp insize => some ({ addr := 200, bytes := inp.bytes }, insize) }

/-- Settings whose context points to the value 6 instead of 5. -/
def mistaggedDecompress : LodePNGDecompressSettings :=
  { custom_zlib := some CustomZlib.rebol_zlib_decompress, custom_context := some 6 }

/-- Settings whose context points to the value 6 instead of 5. -/
def mistaggedCompress : LodePNGCompressSettings :=
  { custom_zlib := some CustomZlib.rebol_zlib_compress, custom_context := some 6 }

/-- Settings carrying the context value 5 that the sessions configure. -/
def taggedDecompress : LodePNGDecompressSettings :=
  { custom_zlib := some CustomZlib.rebol_zlib_decompress, custom_context := some 5 }

/-- Settings carrying the context value 5 that the sessions configure. -/
def taggedCompress : LodePNGCompressSettings :=
  { custom_zlib := some CustomZlib.rebol_zlib_compress, custom_context := some 5 }

/-! ## The engine contract behind the round trip -/

/-- Modelled from the spec: the byte content of a host binary value, defined by the host
value system, which the source does not contain.  Following the spec's `repossess(ptr, len)`
(a zero-copy transfer of the buffer into an owned binary value of `len` bytes), a blob holds the
first `size` bytes stored at its pointer; an image holds the bytes of its pixel blob. -/
def Value.bytes : Value → List Nat
  | Value.blob p size => p.bytes.take size
  | Value.image _ _ pixels => pixels.bytes
  | Value.logic _ => []

/-- Modelled from the spec: the behaviour of the external PNG engine (`lodepng_encode` and
`lodepng_decode`, absent from the source), which the spec treats as an opaque collaborator.
On the session that `ENCODE_PNG` configures (RGBA8 in, RGBA8 out, automatic conversion off) the
engine encodes every `w` x `h` RGBA8 buffer with `w`, `h` in 1..4096 successfully; on the
session that `DECODE_PNG` configures (forced RGBA8 output) it decodes those `n` encoded bytes,
wherever they are stored, successfully to the same width and height and to a buffer whose first
`w * h * 4` bytes are the original pixels. -/
def Engine.Lossless (eng : Engine) : Prop :=
  ∀ (img : Pointer) (w h : Nat), 1 ≤ w → w ≤ 4096 → 1 ≤ h → h ≤ 4096 →
    img.bytes.length = w * h * 4 →
    ∃ (q : Pointer) (n : Nat),
      eng.lodepng_encode (encode_state eng.lodepng_state_init) img w h
        = Outcome.returned 0 (q, n)
      ∧ ∀ data : Pointer, data.bytes = q.bytes.take n →
          ∃ r : Pointer,
            eng.lodepng_decode (decode_state eng.lodepng_state_init) data n
              = Outcome.returned 0 (r, w, h)
            ∧ r.bytes.take (w * h * 4) = img.bytes

/-- A stand-in engine with a trivial wire format (width, height, then the raw pixels), used to
evaluate the natives on concrete images. -/
def storeEngine : Engine :=
  { lodepng_state_init := blankState,
    lodepng_inspect := fun _ data size =>
      match data.bytes.take size with
      | w :: h :: _ => Outcome.returned 0 (w, h)
      | _ => Outcome.returned 27 (0, 0),
    lodepng_decode := fun _ data size =>
      match data.bytes.take size with
      | w :: h :: rest => Outcome.returned 0 ({ addr := 4096, bytes := rest }, w, h)
      | _ => Outcome.returned 27 ({ addr := 0, bytes := [] }, 0, 0),
    lodepng_encode := fun _ img w h =>
      Outcome.returned 0 ({ addr := 8192, bytes := w :: h :: img.bytes }, 2 + img.bytes.length),
    lodepng_error_text := fun _ => "PNG file is smaller than a PNG header" }

/-- The 2 x 2 image with pixels black opaque, white opaque, transparent, and (10,20,30,40). -/
def twoByTwo : HostImage :=
  { x := 2, y := 2,
    bytes := { addr := 1,
               bytes := [0, 0, 0, 255, 255, 255, 255, 255, 0, 0, 0, 0, 10, 20, 30, 40] },
    binsize := 16 }

/-! ## Results about the natives -/

/-- On success `DECODE_PNG` returns the image built from the engine's width, height and buffer,
with the 32-bit length. -/
theorem DECODE_PNG_success (eng : Engine) (data : Pointer) (size : Nat) (p : Pointer) (w h : Nat)
    (hret : eng.lodepng_decode (decode_state eng.lodepng_state_init) data size
      = Outcome.returned 0 (p, w, h)) :
    (DECODE_PNG eng data size).exit
      = Exit.returned (Bounce.value (Value.image w h (Value.blob p (u32 (u32 (w * h) * 4))))) := by
  simp [DECODE_PNG, hret]

/-- When `w * h * 4` fits in 32 bits the length computed by `DECODE_PNG` is the exact product. -/
theorem u32_length_exact (w h : Nat) (hfit : w * h * 4 < 4294967296) :
    u32 (u32 (w * h) * 4) = w * h * 4 := by
  unfold u32
  have h1 : w * h < 4294967296 := by omega
  rw [Nat.mod_eq_of_lt h1, Nat.mod_eq_of_lt hfit]

/-- C1 (code defect): with the engine succeeding on a 32768 x 32768 image, `DECODE_PNG`
repossesses the buffer with length 0, not with the product 32768 * 32768 * 4 = 4294967296;
width and height are carried unchanged. -/
theorem DECODE_PNG_length_wraps :
    (DECODE_PNG wideEngine { addr := 1, bytes := [] } 0).exit
      = Exit.returned (Bounce.value
          (Value.image 32768 32768 (Value.blob { addr := 4096, bytes := [] } 0)))
    ∧ (0 : Nat) ≠ 32768 * 32768 * 4 := by
  constructor
  · rfl
  · decide

/-- C2: when the engine returns a nonzero result code `e`, `DECODE_PNG` returns a delegation
to `raise` carrying the engine's text for `e`; the run contains no `rebRepossess` and builds no
image. -/
theorem DECODE_PNG_error_raises (eng : Engine) (data : Pointer) (size : Nat) (e : Nat)
    (o : Pointer × Nat × Nat)
    (hret : eng.lodepng_decode (decode_state eng.lodepng_state_init) data size
      = Outcome.returned e o)
    (hne : e ≠ 0) :
    (DECODE_PNG eng data size).exit
        = Exit.returned (Bounce.delegate "raise" (eng.lodepng_error_text e))
      ∧ (∀ a ∈ (DECODE_PNG eng data size).trace, a.isRepossess = false ∧ a.isMakeImage = false)
      ∧ (∀ v, (DECODE_PNG eng data size).exit ≠ Exit.returned (Bounce.value v))
      ∧ (DECODE_PNG eng data size).exit ≠ Exit.unwound := by
  obtain ⟨p, w, h⟩ := o
  simp [DECODE_PNG, hret, hne, Act.isRepossess, Act.isMakeImage]

/-- Instance of C2 at an engine rejecting a one-byte input with code 27. -/
theorem DECODE_PNG_error_raises_witness :
    (DECODE_PNG rejectingEngine { addr := 1, bytes := [7] } 1).exit
        = Exit.returned (Bounce.delegate "raise" "PNG file is smaller than a PNG header")
      ∧ (∀ a ∈ (DECODE_PNG rejectingEngine { addr := 1, bytes := [7] } 1).trace,
          a.isRepossess = false ∧ a.isMakeImage = false)
      ∧ (∀ v, (DECODE_PNG rejectingEngine { addr := 1, bytes := [7] } 1).exit
          ≠ Exit.returned (Bounce.value v))
      ∧ (DECODE_PNG rejectingEngine { addr := 1, bytes := [7] } 1).exit ≠ Exit.unwound :=
  DECODE_PNG_error_raises rejectingEngine { addr := 1, bytes := [7] } 1 27
    ({ addr := 0, bytes := [] }, 0, 0) rfl (by decide)

/-- C3: whenever the engine's header inspection returns a result code `e`, `IDENTIFY_PNG_Q`
returns the logic value true exactly when `e = 0`, returns false for every nonzero `e`, and
never returns a delegation to an error. -/
theorem IDENTIFY_PNG_Q_logic (eng : Engine) (data : Pointer) (size : Nat) (e : Nat)
    (o : Nat × Nat)
    (hret : eng.lodepng_inspect (identify_state eng.lodepng_state_init) data size
      = Outcome.returned e o) :
    ((IDENTIFY_PNG_Q eng data size).exit = Exit.returned (Bounce.value (Value.logic true))
        ↔ e = 0)
      ∧ (e ≠ 0 →
          (IDENTIFY_PNG_Q eng data size).exit = Exit.returned (Bounce.value (Value.logic false)))
      ∧ (∀ word text,
          (IDENTIFY_PNG_Q eng data size).exit ≠ Exit.returned (Bounce.delegate word text))
      ∧ (IDENTIFY_PNG_Q eng data size).exit ≠ Exit.unwound := by
  by_cases he : e = 0
  · simp [IDENTIFY_PNG_Q, hret, he]
  · simp [IDENTIFY_PNG_Q, hret, he]

/-- Instance of C3 at an engine rejecting the input with code 27. -/
theorem IDENTIFY_PNG_Q_logic_witness :
    ((IDENTIFY_PNG_Q rejectingEngine { addr := 1, bytes := [7] } 1).exit
        = Exit.returned (Bounce.value (Value.logic true)) ↔ 27 = 0)
      ∧ (27 ≠ 0 →
          (IDENTIFY_PNG_Q rejectingEngine { addr := 1, bytes := [7] } 1).exit
            = Exit.returned (Bounce.value (Value.logic false)))
      ∧ (∀ word text,
          (IDENTIFY_PNG_Q rejectingEngine { addr := 1, bytes := [7] } 1).exit
            ≠ Exit.returned (Bounce.delegate word text))
      ∧ (IDENTIFY_PNG_Q rejectingEngine { addr := 1, bytes := [7] } 1).exit ≠ Exit.unwound :=
  IDENTIFY_PNG_Q_logic rejectingEngine { addr := 1, bytes := [7] } 1 27 (0, 0) rfl

/-- C4: when the engine returns result code 0 with output buffer `p` and length `n`,
`ENCODE_PNG` returns the blob made by `rebRepossess p n` (same pointer, same length) and that is
the only repossession; when the engine returns a nonzero code `e`, `ENCODE_PNG` returns a
delegation to `fail` carrying the engine's text for `e` and repossesses nothing. -/
theorem ENCODE_PNG_result (eng : Engine) (image : HostImage) (e : Nat) (p : Pointer) (n : Nat)
    (hret : eng.lodepng_encode (encode_state eng.lodepng_state_init) image.bytes
        (int_to_unsigned image.x) (int_to_unsigned image.y) = Outcome.returned e (p, n)) :
    (e = 0 →
        (ENCODE_PNG eng image).exit = Exit.returned (Bounce.value (Value.blob p n))
        ∧ (ENCODE_PNG eng image).trace.filter Act.isRepossess = [Act.rebRepossess p n])
      ∧ (e ≠ 0 →
        (ENCODE_PNG eng image).exit
            = Exit.returned (Bounce.delegate "fail" (eng.lodepng_error_text e))
        ∧ (ENCODE_PNG eng image).trace.filter Act.isRepossess = []) := by
  by_cases he : e = 0
  · simp [ENCODE_PNG, hret, he, Act.isRepossess, List.filter]
  · simp [ENCODE_PNG, hret, he, Act.isRepossess, List.filter]

/-- Instance of C4 at an engine that succeeds with an empty output buffer at address 8192. -/
theorem ENCODE_PNG_result_witness :
    ((0 : Nat) = 0 →
        (ENCODE_PNG wideEngine onePixelImage).exit
          = Exit.returned (Bounce.value (Value.blob { addr := 8192, bytes := [] } 0))
        ∧ (ENCODE_PNG wideEngine onePixelImage).trace.filter Act.isRepossess
          = [Act.rebRepossess { addr := 8192, bytes := [] } 0])
      ∧ ((0 : Nat) ≠ 0 →
        (ENCODE_PNG wideEngine onePixelImage).exit
          = Exit.returned (Bounce.delegate "fail" (wideEngine.lodepng_error_text 0))
        ∧ (ENCODE_PNG wideEngine onePixelImage).trace.filter Act.isRepossess = []) :=
  ENCODE_PNG_result wideEngine onePixelImage 0 { addr := 8192, bytes := [] } 0 rfl

/-- C6: in each of the three natives, whenever the engine call returns a result code, the marked
calls of the run are exactly: the lock of the input bytes, the engine call, one session cleanup,
one unlock of the very pointer that was locked, and then only calls that produce the returned
value or error; the native then returns. -/
theorem natives_release_once (eng : Engine) (data : Pointer) (size : Nat) (image : HostImage) :
    ((∃ e o, eng.lodepng_inspect (identify_state eng.lodepng_state_init) data size
          = Outcome.returned e o) →
        releaseOrder data ((IDENTIFY_PNG_Q eng data size).trace.filter Act.marks) = true
        ∧ ∃ b, (IDENTIFY_PNG_Q eng data size).exit = Exit.returned b)
    ∧ ((∃ e o, eng.lodepng_decode (decode_state eng.lodepng_state_init) data size
          = Outcome.returned e o) →
        releaseOrder data ((DECODE_PNG eng data size).trace.filter Act.marks) = true
        ∧ ∃ b, (DECODE_PNG eng data size).exit = Exit.returned b)
    ∧ ((∃ e o, eng.lodepng_encode (encode_state eng.lodepng_state_init) image.bytes
          (int_to_unsigned image.x) (int_to_unsigned image.y) = Outcome.returned e o) →
        releaseOrder image.bytes ((ENCODE_PNG eng image).trace.filter Act.marks) = true
        ∧ ∃ b, (ENCODE_PNG eng image).exit = Exit.returned b) := by
  refine ⟨?_, ?_, ?_⟩
  · rintro ⟨e, o, hret⟩
    by_cases he : e = 0 <;>
      simp [IDENTIFY_PNG_Q, hret, he, List.filter, Act.marks, Act.isLock, Act.isEngineCall,
        Act.isCleanup, Act.isUnlock, Act.producesResult, releaseOrder]
  · rintro ⟨e, ⟨p, w, h⟩, hret⟩
    by_cases he : e = 0 <;>
      simp [DECODE_PNG, hret, he, List.filter, Act.marks, Act.isLock, Act.isEngineCall,
        Act.isCleanup, Act.isUnlock, Act.producesResult, releaseOrder]
  · rintro ⟨e, ⟨p, n⟩, hret⟩
    by_cases he : e = 0 <;>
      simp [ENCODE_PNG, hret, he, List.filter, Act.marks, Act.isLock, Act.isEngineCall,
        Act.isCleanup, Act.isUnlock, Act.producesResult, releaseOrder]

/-- Instance of C6: the three runs at an engine that rejects every input with code 27. -/
theorem natives_release_once_witness :
    (releaseOrder { addr := 1, bytes := [7] }
        ((IDENTIFY_PNG_Q rejectingEngine { addr := 1, bytes := [7] } 1).trace.filter Act.marks)
        = true
      ∧ ∃ b, (IDENTIFY_PNG_Q rejectingEngine { addr := 1, bytes := [7] } 1).exit
        = Exit.returned b)
    ∧ (releaseOrder { addr := 1, bytes := [7] }
        ((DECODE_PNG rejectingEngine { addr := 1, bytes := [7] } 1).trace.filter Act.marks) = true
      ∧ ∃ b, (DECODE_PNG rejectingEngine { addr := 1, bytes := [7] } 1).exit = Exit.returned b)
    ∧ (releaseOrder onePixelImage.bytes
        ((ENCODE_PNG rejectingEngine onePixelImage).trace.filter Act.marks) = true
      ∧ ∃ b, (ENCODE_PNG rejectingEngine onePixelImage).exit = Exit.returned b) :=
  ⟨(natives_release_once rejectingEngine { addr := 1, bytes := [7] } 1 onePixelImage).1
      ⟨27, (0, 0), rfl⟩,
   (natives_release_once rejectingEngine { addr := 1, bytes := [7] } 1 onePixelImage).2.1
      ⟨27, ({ addr := 0, bytes := [] }, 0, 0), rfl⟩,
   (natives_release_once rejectingEngine { addr := 1, bytes := [7] } 1 onePixelImage).2.2
      ⟨27, ({ addr := 0, bytes := [] }, 0), rfl⟩⟩

/-- The release check is not vacuous: it rejects the run of a native whose engine call raised. -/
theorem releaseOrder_rejects_unwound :
    releaseOrder { addr := 1, bytes := [7] }
      ((DECODE_PNG raisingEngine { addr := 1, bytes := [7] } 1).trace.filter Act.marks) = false := by
  rfl

/-- C7 as stated fails: when the engine call made by `DECODE_PNG` raises instead of returning,
the run contains no session cleanup at all and the native is unwound. -/
theorem DECODE_PNG_raise_skips_cleanup :
    ¬ (Act.lodepng_state_cleanup ∈ (DECODE_PNG raisingEngine { addr := 1, bytes := [7] } 1).trace)
    ∧ (DECODE_PNG raisingEngine { addr := 1, bytes := [7] } 1).exit = Exit.unwound := by
  constructor
  · decide
  · rfl

/-- C7 amended: in each of the three natives the session cleanup runs exactly on the paths where
the engine call returns a result code, and there it comes after the engine call and before every
call that produces the result; when the engine call raises, the native is unwound, its last
call is the engine call, and it runs no cleanup. -/
theorem cleanup_on_engine_return (eng : Engine) (data : Pointer) (size : Nat)
    (image : HostImage) :
    ((∀ e o, eng.lodepng_inspect (identify_state eng.lodepng_state_init) data size
          = Outcome.returned e o →
        cleanupOrder ((IDENTIFY_PNG_Q eng data size).trace.filter Act.cleanupMarks) = true)
      ∧ (eng.lodepng_inspect (identify_state eng.lodepng_state_init) data size = Outcome.raised →
        (IDENTIFY_PNG_Q eng data size).trace.filter Act.isCleanup = []
        ∧ (IDENTIFY_PNG_Q eng data size).exit = Exit.unwound
        ∧ (IDENTIFY_PNG_Q eng data size).trace.getLast?
          = some (Act.lodepng_inspect (identify_state eng.lodepng_state_init) data size)))
    ∧ ((∀ e o, eng.lodepng_decode (decode_state eng.lodepng_state_init) data size
          = Outcome.returned e o →
        cleanupOrder ((DECODE_PNG eng data size).trace.filter Act.cleanupMarks) = true)
      ∧ (eng.lodepng_decode (decode_state eng.lodepng_state_init) data size = Outcome.raised →
        (DECODE_PNG eng data size).trace.filter Act.isCleanup = []
        ∧ (DECODE_PNG eng data size).exit = Exit.unwound
        ∧ (DECODE_PNG eng data size).trace.getLast?
          = some (Act.lodepng_decode (decode_state eng.lodepng_state_init) data size)))
    ∧ ((∀ e o, eng.lodepng_encode (encode_state eng.lodepng_state_init) image.bytes
          (int_to_unsigned image.x) (int_to_unsigned image.y) = Outcome.returned e o →
        cleanupOrder ((ENCODE_PNG eng image).trace.filter Act.cleanupMarks) = true)
      ∧ (eng.lodepng_encode (encode_state eng.lodepng_state_init) image.bytes
          (int_to_unsigned image.x) (int_to_unsigned image.y) = Outcome.raised →
        (ENCODE_PNG eng image).trace.filter Act.isCleanup = []
        ∧ (ENCODE_PNG eng image).exit = Exit.unwound
        ∧ (ENCODE_PNG eng image).trace.getLast?
          = some (Act.lodepng_encode (encode_state eng.lodepng_state_init) image.bytes
              (int_to_unsigned image.x) (int_to_unsigned image.y)))) := by
  refine ⟨⟨?_, ?_⟩, ⟨?_, ?_⟩, ⟨?_, ?_⟩⟩
  · intro e o hret
    by_cases he : e = 0 <;>
      simp [IDENTIFY_PNG_Q, hret, he, List.filter, Act.cleanupMarks, Act.isEngineCall,
        Act.isCleanup, Act.producesResult, cleanupOrder]
  · intro hret
    simp [IDENTIFY_PNG_Q, hret, List.filter, Act.isCleanup]
  · rintro e ⟨p, w, h⟩ hret
    by_cases he : e = 0 <;>
      simp [DECODE_PNG, hret, he, List.filter, Act.cleanupMarks, Act.isEngineCall,
        Act.isCleanup, Act.producesResult, cleanupOrder]
  · intro hret
    simp [DECODE_PNG, hret, List.filter, Act.isCleanup]
  · rintro e ⟨p, n⟩ hret
    by_cases he : e = 0 <;>
      simp [ENCODE_PNG, hret, he, List.filter, Act.cleanupMarks, Act.isEngineCall,
        Act.isCleanup, Act.producesResult, cleanupOrder]
  · intro hret
    simp [ENCODE_PNG, hret, List.filter, Act.isCleanup]

/-- Instance of C7 amended: the returning path of `DECODE_PNG` at the rejecting engine and the
raising path of `ENCODE_PNG` at the raising engine. -/
theorem cleanup_on_engine_return_witness :
    cleanupOrder
        ((DECODE_PNG rejectingEngine { addr := 1, bytes := [7] } 1).trace.filter
          Act.cleanupMarks) = true
    ∧ ((ENCODE_PNG raisingEngine onePixelImage).trace.filter Act.isCleanup = []
      ∧ (ENCODE_PNG raisingEngine onePixelImage).exit = Exit.unwound
      ∧ (ENCODE_PNG raisingEngine onePixelImage).trace.getLast?
        = some (Act.lodepng_encode (encode_state raisingEngine.lodepng_state_init)
            onePixelImage.bytes (int_to_unsigned onePixelImage.x)
            (int_to_unsigned onePixelImage.y))) :=
  ⟨(cleanup_on_engine_return rejectingEngine { addr := 1, bytes := [7] } 1 onePixelImage).2.1.1
      27 ({ addr := 0, bytes := [] }, 0, 0) rfl,
   (cleanup_on_engine_return raisingEngine { addr := 1, bytes := [7] } 1 onePixelImage).2.2.2
      rfl⟩

/-! ## Results about the hooks -/

/-- C8 as stated fails: in a build with `NDEBUG` defined the decompress hook, invoked with a
context holding 6, does not abort: it calls the host inflater, overwrites the output pointer
and size, and returns 0 to the engine. -/
theorem rebol_zlib_decompress_ndebug_ignores_tag :
    rebol_zlib_decompress true echoHost { addr := 50, bytes := [] } 0
        { addr := 60, bytes := [9, 9] } 2 mistaggedDecompress
      = { calls := [HostCall.rebFree { addr := 50, bytes := [] },
                    HostCall.rebZinflateAlloc { addr := 60, bytes := [9, 9] } 2 (-1)],
          out := { addr := 100, bytes := [9, 9] },
          outsize := 2,
          exit := HookExit.returned 0 }
    ∧ mistaggedDecompress.custom_context ≠ some 5 := by
  constructor
  · rfl
  · decide

/-- C8 amended: in a build with assertions enabled (`NDEBUG` not defined), every invocation of
either hook whose settings do not carry the context value 5 frees the engine's output buffer
and then aborts: the host (de)compressor is not called, the output pointer and size keep their
values on entry, and no result code is returned. -/
theorem hooks_abort_on_mismatch (host : Host) (out : Pointer) (outsize : Nat) (inp : Pointer)
    (insize : Nat) (sd : LodePNGDecompressSettings) (sc : LodePNGCompressSettings)
    (td tc : Int) (hd : sd.custom_context = some td) (hc : sc.custom_context = some tc)
    (htd : td ≠ 5) (htc : tc ≠ 5) :
    rebol_zlib_decompress false host out outsize inp insize sd
        = { calls := [HostCall.rebFree out], out := out, outsize := outsize,
            exit := HookExit.aborted }
    ∧ rebol_zlib_compress false host out outsize inp insize sc
        = { calls := [HostCall.rebFree out], out := out, outsize := outsize,
            exit := HookExit.aborted } := by
  simp [rebol_zlib_decompress, rebol_zlib_compress, lodepng_free, assert_passes, hd, hc, htd, htc]

/-- Instance of C8 amended at settings whose context holds 6. -/
theorem hooks_abort_on_mismatch_witness :
    rebol_zlib_decompress false echoHost { addr := 50, bytes := [] } 0
        { addr := 60, bytes := [9, 9] } 2 mistaggedDecompress
        = { calls := [HostCall.rebFree { addr := 50, bytes := [] }],
            out := { addr := 50, bytes := [] }, outsize := 0, exit := HookExit.aborted }
    ∧ rebol_zlib_compress false echoHost { addr := 50, bytes := [] } 0
        { addr := 60, bytes := [9, 9] } 2 mistaggedCompress
        = { calls := [HostCall.rebFree { addr := 50, bytes := [] }],
            out := { addr := 50, bytes := [] }, outsize := 0, exit := HookExit.aborted } :=
  hooks_abort_on_mismatch echoHost { addr := 50, bytes := [] } 0 { addr := 60, bytes := [9, 9] } 2
    mistaggedDecompress mistaggedCompress 6 6 rfl rfl (by decide) (by decide)

/-- C9: the session that each native configures and passes to the engine stores the hook
together with a context holding 5, the value that hook compares against (decompress hook for
`IDENTIFY_PNG_Q` and `DECODE_PNG`, compress hook for `ENCODE_PNG`); invoked with those
settings the hook never aborts, whatever the build, host and buffers. -/
theorem sessions_pair_hook_with_tag (eng : Engine) (data : Pointer) (size : Nat)
    (image : HostImage) (ndebug : Bool) (host : Host) (out : Pointer) (outsize : Nat)
    (inp : Pointer) (insize : Nat) :
    (Act.lodepng_inspect (identify_state eng.lodepng_state_init) data size
        ∈ (IDENTIFY_PNG_Q eng data size).trace
      ∧ (identify_state eng.lodepng_state_init).decoder.zlibsettings
        = { custom_zlib := some CustomZlib.rebol_zlib_decompress, custom_context := some 5 }
      ∧ (rebol_zlib_decompress ndebug host out outsize inp insize
          (identify_state eng.lodepng_state_init).decoder.zlibsettings).exit ≠ HookExit.aborted)
    ∧ (Act.lodepng_decode (decode_state eng.lodepng_state_init) data size
        ∈ (DECODE_PNG eng data size).trace
      ∧ (decode_state eng.lodepng_state_init).decoder.zlibsettings
        = { custom_zlib := some CustomZlib.rebol_zlib_decompress, custom_context := some 5 }
      ∧ (rebol_zlib_decompress ndebug host out outsize inp insize
          (decode_state eng.lodepng_state_init).decoder.zlibsettings).exit ≠ HookExit.aborted)
    ∧ (Act.lodepng_encode (encode_state eng.lodepng_state_init) image.bytes
          (int_to_unsigned image.x) (int_to_unsigned image.y)
        ∈ (ENCODE_PNG eng image).trace
      ∧ (encode_state eng.lodepng_state_init).encoder.zlibsettings
        = { custom_zlib := some CustomZlib.rebol_zlib_compress, custom_context := some 5 }
      ∧ (rebol_zlib_compress ndebug host out outsize inp insize
          (encode_state eng.lodepng_state_init).encoder.zlibsettings).exit ≠ HookExit.aborted) := by
  refine ⟨⟨?_, rfl, ?_⟩, ⟨?_, rfl, ?_⟩, ⟨?_, rfl, ?_⟩⟩
  · rcases hret : eng.lodepng_inspect (identify_state eng.lodepng_state_init) data size
      with ⟨e, o⟩ | _
    · by_cases he : e = 0 <;> simp [IDENTIFY_PNG_Q, hret, he]
    · simp [IDENTIFY_PNG_Q, hret]
  · simp only [rebol_zlib_decompress, identify_state, assert_passes]
    cases host.rebZinflateAlloc inp insize (-1) <;> simp
  · rcases hret : eng.lodepng_decode (decode_state eng.lodepng_state_init) data size
      with ⟨e, ⟨p, w, h⟩⟩ | _
    · by_cases he : e = 0 <;> simp [DECODE_PNG, hret, he]
    · simp [DECODE_PNG, hret]
  · simp only [rebol_zlib_decompress, decode_state, assert_passes]
    cases host.rebZinflateAlloc inp insize (-1) <;> simp
  · rcases hret : eng.lodepng_encode (encode_state eng.lodepng_state_init) image.bytes
      (int_to_unsigned image.x) (int_to_unsigned image.y) with ⟨e, ⟨p, n⟩⟩ | _
    · by_cases he : e = 0 <;> simp [ENCODE_PNG, hret, he]
    · simp [ENCODE_PNG, hret]
  · simp only [rebol_zlib_compress, encode_state, assert_passes]
    cases host.rebZdeflateAlloc inp insize <;> simp

/-- With `NDEBUG` defined neither hook looks at its settings: the run is the same whatever
context they carry. -/
theorem hooks_ndebug_ignore_settings (host : Host) (out : Pointer) (outsize : Nat)
    (inp : Pointer) (insize : Nat) (sd sd2 : LodePNGDecompressSettings)
    (sc sc2 : LodePNGCompressSettings) :
    rebol_zlib_decompress true host out outsize inp insize sd
        = rebol_zlib_decompress true host out outsize inp insize sd2
    ∧ rebol_zlib_compress true host out outsize inp insize sc
        = rebol_zlib_compress true host out outsize inp insize sc2 := by
  simp [rebol_zlib_decompress, rebol_zlib_compress, assert_passes]

/-- C10: invoked with the context value 5, input `inp` of length `insize` and engine buffer `b`,
each hook makes exactly two host calls, first `rebFree b` (once) and then its own host routine
on `(inp, insize)` (the inflater with size hint -1 for decompress, the deflater for compress);
when that routine returns buffer and length, the hook stores exactly these in the output
pointer and size and returns 0.  No other call is made, so nothing touches `b` after it is
freed and nothing writes the input.  Each hook depends only on its own settings and its own
host routine. -/
theorem hooks_replace_output (ndebug : Bool) (host : Host) (b : Pointer) (outsize : Nat)
    (inp : Pointer) (insize : Nat) :
    (∀ (sd : LodePNGDecompressSettings) (p : Pointer) (n : Nat),
      sd.custom_context = some 5 →
      host.rebZinflateAlloc inp insize (-1) = some (p, n) →
      rebol_zlib_decompress ndebug host b outsize inp insize sd
          = { calls := [HostCall.rebFree b, HostCall.rebZinflateAlloc inp insize (-1)],
              out := p, outsize := n, exit := HookExit.returned 0 }
        ∧ (rebol_zlib_decompress ndebug host b outsize inp insize sd).calls.count
            (HostCall.rebFree b) = 1)
    ∧ (∀ (sc : LodePNGCompressSettings) (q : Pointer) (m : Nat),
      sc.custom_context = some 5 →
      host.rebZdeflateAlloc inp insize = some (q, m) →
      rebol_zlib_compress ndebug host b outsize inp insize sc
          = { calls := [HostCall.rebFree b, HostCall.rebZdeflateAlloc inp insize],
              out := q, outsize := m, exit := HookExit.returned 0 }
        ∧ (rebol_zlib_compress ndebug host b outsize inp insize sc).calls.count
            (HostCall.rebFree b) = 1) := by
  constructor
  · intro sd p n hd hinf
    have e1 : rebol_zlib_decompress ndebug host b outsize inp insize sd
        = { calls := [HostCall.rebFree b, HostCall.rebZinflateAlloc inp insize (-1)],
            out := p, outsize := n, exit := HookExit.returned 0 } := by
      simp [rebol_zlib_decompress, assert_passes, hd, hinf]
    refine ⟨e1, ?_⟩
    rw [e1]; simp [List.count_cons]
  · intro sc q m hc hdef
    have e2 : rebol_zlib_compress ndebug host b outsize inp insize sc
        = { calls := [HostCall.rebFree b, HostCall.rebZdeflateAlloc inp insize],
            out := q, outsize := m, exit := HookExit.returned 0 } := by
      simp [rebol_zlib_compress, lodepng_free, assert_passes, hc, hdef]
    refine ⟨e2, ?_⟩
    rw [e2]; simp [List.count_cons]

/-- Instance of C10 in a build with assertions enabled: the decompress hook at the echoing
host, and the compress hook at a host whose inflater raises on the same input. -/
theorem hooks_replace_output_witness :
    (rebol_zlib_decompress false echoHost { addr := 50, bytes := [] } 0
          { addr := 60, bytes := [9, 9] } 2 taggedDecompress
        = { calls := [HostCall.rebFree { addr := 50, bytes := [] },
                      HostCall.rebZinflateAlloc { addr := 60, bytes := [9, 9] } 2 (-1)],
            out := { addr := 100, bytes := [9, 9] }, outsize := 2,
            exit := HookExit.returned 0 }
      ∧ (rebol_zlib_decompress false echoHost { addr := 50, bytes := [] } 0
          { addr := 60, bytes := [9, 9] } 2 taggedDecompress).calls.count
          (HostCall.rebFree { addr := 50, bytes := [] }) = 1)
    ∧ (rebol_zlib_compress false deflateOnlyHost { addr := 50, bytes := [] } 0
          { addr := 60, bytes := [9, 9] } 2 taggedCompress
        = { calls := [HostCall.rebFree { addr := 50, bytes := [] },
                      HostCall.rebZdeflateAlloc { addr := 60, bytes := [9, 9] } 2],
            out := { addr := 200, bytes := [9, 9] }, outsize := 2,
            exit := HookExit.returned 0 }
      ∧ (rebol_zlib_compress false deflateOnlyHost { addr := 50, bytes := [] } 0
          { addr := 60, bytes := [9, 9] } 2 taggedCompress).calls.count
          (HostCall.rebFree { addr := 50, bytes := [] }) = 1)
    ∧ deflateOnlyHost.rebZinflateAlloc { addr := 60, bytes := [9, 9] } 2 (-1) = none :=
  ⟨(hooks_replace_output false echoHost { addr := 50, bytes := [] } 0
      { addr := 60, bytes := [9, 9] } 2).1 taggedDecompress
      { addr := 100, bytes := [9, 9] } 2 rfl rfl,
   (hooks_replace_output false deflateOnlyHost { addr := 50, bytes := [] } 0
      { addr := 60, bytes := [9, 9] } 2).2 taggedCompress
      { addr := 200, bytes := [9, 9] } 2 rfl rfl,
   rfl⟩

/-! ## Round trip -/

/-- An `intptr_t` holding a natural number below 2^32 converts to the same `unsigned`. -/
theorem int_to_unsigned_natCast (n : Nat) (hn : n < 4294967296) :
    int_to_unsigned (n : Int) = n := by
  unfold int_to_unsigned
  omega

/-- The stand-in engine satisfies the engine contract. -/
theorem storeEngine_lossless : storeEngine.Lossless := by
  intro img w h _ _ _ _ _
  refine ⟨{ addr := 8192, bytes := w :: h :: img.bytes }, 2 + img.bytes.length, rfl, ?_⟩
  intro data hdata
  have hfull : (w :: h :: img.bytes).take (2 + img.bytes.length) = w :: h :: img.bytes := by
    apply List.take_of_length_le
    simp
    omega
  have hdata2 : data.bytes = w :: h :: img.bytes := by
    rw [hdata]; exact hfull
  refine ⟨{ addr := 4096, bytes := img.bytes }, ?_, ?_⟩
  · simp [storeEngine, hdata2, hfull]
  · apply List.take_of_length_le
    simp
    omega

/-- C5: for an engine meeting the contract `Engine.Lossless`, and every image `R` of width `W`
and height `H` in 1..4096 with `W * H * 4` pixel bytes, `ENCODE_PNG` returns a blob, and
`DECODE_PNG` applied to the bytes of that blob returns an image of width `W` and height `H`
whose pixel blob has length `W * H * 4` and bytes equal to those of `R`. -/
theorem decode_encode_roundtrip (eng : Engine) (hl : eng.Lossless) (R : HostImage) (W H : Nat)
    (hW : 1 ≤ W ∧ W ≤ 4096) (hH : 1 ≤ H ∧ H ≤ 4096) (hx : R.x = (W : Int))
    (hy : R.y = (H : Int)) (hlen : R.bytes.bytes.length = W * H * 4) :
    ∃ (q : Pointer) (n : Nat),
      (ENCODE_PNG eng R).exit = Exit.returned (Bounce.value (Value.blob q n))
      ∧ ∀ data : Pointer, data.bytes = (Value.blob q n).bytes →
          ∃ r : Pointer,
            (DECODE_PNG eng data n).exit
              = Exit.returned (Bounce.value (Value.image W H (Value.blob r (W * H * 4))))
            ∧ (Value.image W H (Value.blob r (W * H * 4))).bytes = R.bytes.bytes := by
  obtain ⟨q, n, henc, hdec⟩ := hl R.bytes W H hW.1 hW.2 hH.1 hH.2 hlen
  have hw : int_to_unsigned R.x = W := by
    rw [hx]; exact int_to_unsigned_natCast W (by omega)
  have hh : int_to_unsigned R.y = H := by
    rw [hy]; exact int_to_unsigned_natCast H (by omega)
  refine ⟨q, n, ?_, ?_⟩
  · simp [ENCODE_PNG, hw, hh, henc]
  · intro data hdata
    obtain ⟨r, hr, hbytes⟩ := hdec data hdata
    refine ⟨r, ?_, hbytes⟩
    have hprod : W * H ≤ 4096 * 4096 := Nat.mul_le_mul hW.2 hH.2
    have hfit : W * H * 4 < 4294967296 := by omega
    rw [DECODE_PNG_success eng data n r W H hr, u32_length_exact W H hfit]

/-- Instance of C5: the 2 x 2 image of the specification through the stand-in engine. -/
theorem decode_encode_roundtrip_witness :
    ∃ (q : Pointer) (n : Nat),
      (ENCODE_PNG storeEngine twoByTwo).exit = Exit.returned (Bounce.value (Value.blob q n))
      ∧ ∀ data : Pointer, data.bytes = (Value.blob q n).bytes →
          ∃ r : Pointer,
            (DECODE_PNG storeEngine data n).exit
              = Exit.returned (Bounce.value (Value.image 2 2 (Value.blob r (2 * 2 * 4))))
            ∧ (Value.image 2 2 (Value.blob r (2 * 2 * 4))).bytes
              = [0, 0, 0, 255, 255, 255, 255, 255, 0, 0, 0, 0, 10, 20, 30, 40] :=
  decode_encode_roundtrip storeEngine storeEngine_lossless twoByTwo 2 2
    (by decide) (by decide) rfl rfl rfl

end ModPng
